import Mathlib

/-
Verification of the playback-control and visualization subsystem of the
mugen-transformer front end (src/frontend/src/components/MusicPlayer.jsx).

The component is embedded shallowly:
* numbers the JavaScript code handles as IEEE doubles are modelled as
  rationals; an unknown media duration (JavaScript NaN) is modelled as
  `Option.none`;
* the React component state together with the relevant fields of the
  audio element is one record, `PlayerState`; each event handler of the
  component becomes a function on that record;
* the canvas render loop body (`draw`) becomes a pure function from a
  frequency frame (a list of magnitude bytes) to a list of drawn
  rectangles.
-/

namespace MugenTransformer

/-- A CSS color channel clamps out-of-range numeric values to [0, 255]. -/
def clampChannel (x : ℚ) : ℚ := max 0 (min x 255)

/-- One rectangle painted by `ctx.fillRect`, together with the fill style
in force when it was painted (red, green, blue channels). -/
structure Rect where
  x : ℚ
  y : ℚ
  w : ℚ
  h : ℚ
  red : ℚ
  green : ℚ
  blue : ℚ
  deriving DecidableEq, Repr

/-- `const barHeight = dataArray[i] / 2;` for a magnitude byte `m`. -/
def barHeight (m : ℕ) : ℚ := (m : ℚ) / 2

/-- The red channel of `rgb(${barHeight + 100}, 50, 200)`: the code ramps
the red channel with `barHeight + 100`, and CSS clamps each channel. -/
def fillRed (m : ℕ) : ℚ := clampChannel (barHeight m + 100)

/-- `const barWidth = (canvas.width / bufferLength) * 2.5;`. -/
def barWidth (cw : ℚ) (n : ℕ) : ℚ := cw / (n : ℚ) * (5 / 2)

/-- The body of the `for` loop in `draw`: each bin paints one rectangle
`ctx.fillRect(x, canvas.height - barHeight, barWidth, barHeight)` with
fill `rgb(${barHeight + 100}, 50, 200)`, then advances
`x += barWidth + 1`. -/
def drawBars (ch bw : ℚ) : List ℕ → ℚ → List Rect
  | [], _ => []
  | m :: ms, x =>
    { x := x, y := ch - barHeight m, w := bw, h := barHeight m,
      red := fillRed m, green := clampChannel 50, blue := clampChannel 200 }
      :: drawBars ch bw ms (x + bw + 1)

/-- One tick of `draw` on a frequency frame: the loop runs over the
`bufferLength` bins of `dataArray`, starting at `x = 0`. -/
def drawFrame (cw ch : ℚ) (frame : List ℕ) : List Rect :=
  drawBars ch (barWidth cw frame.length) frame 0

/-- The analyser node of the Audio Tap; `handlePlayPause` sets
`analyserNode.fftSize = 256`. -/
structure Tap where
  fftSize : ℕ
  deriving DecidableEq, Repr

/-- `analyser.frequencyBinCount` is half the FFT size. -/
def frequencyBinCount (t : Tap) : ℕ := t.fftSize / 2

/-- React component state of `MusicPlayer` together with the observable
fields of the audio element it owns.  `duration = none` models the
element's duration being NaN (no source / metadata not loaded). -/
structure PlayerState where
  src : Option String
  duration : Option ℚ
  currentTime : ℚ
  elemVolume : ℚ
  elemPaused : Bool
  audioCtx : Option Tap
  tapsConstructed : ℕ
  isPlaying : Bool
  volume : ℚ
  progress : ℚ
  warned : Bool
  listenersAttached : Bool
  visualizeStarted : Bool
  deriving DecidableEq, Repr

/-- The component's initial state: `useState(null)` for the audio graph,
`useState(false)` for `isPlaying`, `useState(1)` for `volume`,
`useState(0)` for `progress`; the bare `new Audio()` element has no
source, NaN duration, volume 1 and is paused. -/
def initialState : PlayerState :=
  { src := none, duration := none, currentTime := 0, elemVolume := 1,
    elemPaused := true, audioCtx := none, tapsConstructed := 0,
    isPlaying := false, volume := 1, progress := 0, warned := false,
    listenersAttached := false, visualizeStarted := false }

/-- The mount `useEffect`: reads `localStorage.getItem("audioSrc")`; if
absent it logs a warning and returns early; otherwise it assigns the
element's `src` and `volume` and attaches the `timeupdate` and `ended`
listeners. -/
def mountEffect (stored : Option String) (s : PlayerState) : PlayerState :=
  match stored with
  | none => { s with warned := true }
  | some url =>
    { s with src := some url, elemVolume := s.volume,
             listenersAttached := true }

/-- `handlePlayPause`: if `audioCtx` is null, construct the Audio Tap
(context, analyser with `fftSize = 256`, media-element source), store it
in state and start `visualize`; then pause or play the element according
to `isPlaying` and flip `isPlaying`. -/
def handlePlayPause (s : PlayerState) : PlayerState :=
  let s1 :=
    if s.audioCtx.isNone then
      { s with audioCtx := some { fftSize := 256 },
               tapsConstructed := s.tapsConstructed + 1,
               visualizeStarted := true }
    else s
  let s2 :=
    if s.isPlaying then { s1 with elemPaused := true }
    else { s1 with elemPaused := false }
  { s2 with isPlaying := ! s.isPlaying }

/-- `handleVolumeChange`: store the slider value in the `volume` state and
assign it to `audioRef.current.volume`. -/
def handleVolumeChange (v : ℚ) (s : PlayerState) : PlayerState :=
  { s with volume := v, elemVolume := v }

/-- The `ended` listener: `setIsPlaying(false)`. -/
def onEnded (s : PlayerState) : PlayerState := { s with isPlaying := false }

/-- The `HTMLMediaElement.currentTime` setter.  Its WebIDL type is a
restricted `double`, so assigning a non-finite value (NaN, the result of
arithmetic on an unknown duration) throws a `TypeError`; a finite value
is stored. -/
def setCurrentTime (t : Option ℚ) (s : PlayerState) : Except String PlayerState :=
  match t with
  | none => .error "TypeError: currentTime assigned a non-finite value"
  | some v => .ok { s with currentTime := v }

/-- `handleProgressChange`: computes
`newTime = (e.target.value / 100) * audioRef.current.duration` (NaN when
the duration is NaN), assigns it to `currentTime` unguarded, then
`setProgress(e.target.value)`. -/
def handleProgressChange (p : ℚ) (s : PlayerState) : Except String PlayerState :=
  match setCurrentTime (s.duration.map (fun d => p / 100 * d)) s with
  | .error e => .error e
  | .ok s1 => .ok { s1 with progress := p }

/-- The renderer state set up by `visualize`: the canvas is sized
`window.innerWidth * 0.9 × 300`, `bufferLength` is the analyser's bin
count, and `dataArray = new Uint8Array(bufferLength)` (zero-filled). -/
structure Renderer where
  canvasWidth : ℚ
  canvasHeight : ℚ
  bufferLength : ℕ
  dataArray : List ℕ
  deriving DecidableEq, Repr

/-- `visualize(analyserNode)` before the first tick: canvas sizing and
the one allocation of the reusable frequency-frame buffer. -/
def visualizeInit (a : Tap) (viewportWidth : ℚ) : Renderer :=
  { canvasWidth := viewportWidth * (9 / 10)
    canvasHeight := 300
    bufferLength := frequencyBinCount a
    dataArray := List.replicate (frequencyBinCount a) 0 }

/-- `analyser.getByteFrequencyData(dataArray)`: refreshes the buffer in
place from the analyser's current bins, never changing its length. -/
def getByteFrequencyData (buf : List ℕ) (bins : ℕ → ℕ) : List ℕ :=
  (List.range buf.length).map bins

/-- One animation-frame tick of `draw`: refresh the buffer in place,
clear the canvas and repaint every bar; returns the renderer state after
the tick and the rectangles painted. -/
def renderTick (r : Renderer) (bins : ℕ → ℕ) : Renderer × List Rect :=
  let newData := getByteFrequencyData r.dataArray bins
  ({ r with dataArray := newData },
   drawFrame r.canvasWidth r.canvasHeight newData)

/-- The parts of the document `handleDownload` touches: the body's child
nodes (as ids, with `nextId` the next fresh node id) and the list of
programmatic anchor clicks, each of which triggers one download of its
`href`. -/
structure Doc where
  body : List ℕ
  nextId : ℕ
  clicked : List (ℕ × String)
  deriving DecidableEq, Repr

/-- Every node in the body was created earlier, so its id is below the
fresh-id counter. -/
def docInvariant (d : Doc) : Prop := ∀ n ∈ d.body, n < d.nextId

/-- `handleDownload`: reads `localStorage.getItem("audioSrc")`; if absent
does nothing; otherwise creates an anchor with that `href`, appends it to
`document.body`, clicks it, and removes it again. -/
def handleDownload (stored : Option String) (d : Doc) : Doc :=
  match stored with
  | none => d
  | some url =>
    let a := d.nextId
    let d1 : Doc :=
      { body := d.body ++ [a], nextId := d.nextId + 1,
        clicked := d.clicked ++ [(a, url)] }
    { d1 with body := d1.body.erase a }

/-- The rgb fill triple of a painted rectangle. -/
def rgbOf (r : Rect) : ℚ × ℚ × ℚ := (r.red, r.green, r.blue)

/-- The state after mounting with no stored Track Source. -/
def noSourceMounted : PlayerState := mountEffect none initialState

/-- A player whose element has a source but still-unknown (NaN) duration. -/
def unknownDuration : PlayerState :=
  { initialState with src := some "blob:generated", duration := none }

/-- A magnitude byte is at most 255, so the ramped red channel stays at
most 227.5 and the CSS clamp never engages. -/
lemma fillRed_eq (m : ℕ) (hm : m ≤ 255) : fillRed m = (m : ℚ) / 2 + 100 := by
  have hm' : (m : ℚ) ≤ 255 := by exact_mod_cast hm
  have h1 : (m : ℚ) / 2 + 100 ≤ 255 := by linarith
  have h0 : (0 : ℚ) ≤ (m : ℚ) / 2 + 100 := by positivity
  rw [fillRed, barHeight, clampChannel, min_eq_left h1, max_eq_right h0]

lemma drawBars_map_h (ch bw : ℚ) (ms : List ℕ) : ∀ x : ℚ,
    (drawBars ch bw ms x).map Rect.h = ms.map barHeight := by
  induction ms with
  | nil => intro x; rfl
  | cons m ms ih => intro x; simp [drawBars, ih]

lemma drawBars_map_rgb (ch bw : ℚ) (ms : List ℕ) : ∀ x : ℚ,
    (drawBars ch bw ms x).map rgbOf =
      ms.map (fun m => (fillRed m, clampChannel 50, clampChannel 200)) := by
  induction ms with
  | nil => intro x; rfl
  | cons m ms ih => intro x; simp [drawBars, rgbOf, ih]

/-- C1 (amended): each bar drawn for a magnitude byte m has height
exactly m/2, and its fill ramps only the red channel, to m/2 + 100
(the CSS clamp never engages since m/2 + 100 is at most 227.5), with
green and blue fixed at 50 and 200; at the boundaries, m = 0 gives
height 0 and red 100, and m = 255 gives height 127.5 and red 227.5. -/
theorem bar_height_and_color (m : ℕ) (ch bw x : ℚ) (ms : List ℕ)
    (hm : m ≤ 255) :
    drawBars ch bw (m :: ms) x =
      { x := x, y := ch - (m : ℚ) / 2, w := bw, h := (m : ℚ) / 2,
        red := (m : ℚ) / 2 + 100, green := 50, blue := 200 }
        :: drawBars ch bw ms (x + bw + 1) ∧
    barHeight 0 = 0 ∧ fillRed 0 = 100 ∧
    barHeight 255 = 255 / 2 ∧ fillRed 255 = 455 / 2 := by
  refine ⟨?_, by norm_num [barHeight], ?_, by norm_num [barHeight], ?_⟩
  · rw [drawBars, barHeight, fillRed_eq m hm, clampChannel, clampChannel]
    norm_num
  · rw [fillRed_eq 0 (by norm_num)]; norm_num
  · rw [fillRed_eq 255 (by norm_num)]; norm_num

/-- C1 witness: the mapping evaluated on the concrete bar m = 200. -/
theorem bar_height_and_color_witness :
    drawBars 300 4 (200 :: []) 0 =
      { x := 0, y := 300 - ((200 : ℕ) : ℚ) / 2, w := 4,
        h := ((200 : ℕ) : ℚ) / 2, red := ((200 : ℕ) : ℚ) / 2 + 100,
        green := 50, blue := 200 }
        :: drawBars 300 4 [] (0 + 4 + 1) ∧
    barHeight 0 = 0 ∧ fillRed 0 = 100 ∧
    barHeight 255 = 255 / 2 ∧ fillRed 255 = 455 / 2 :=
  bar_height_and_color 200 300 4 0 [] (by norm_num)

/-- C1 counterexample: the claim says the varying channel is
clamp(m + 100); at m = 255 that is 255, but the code computes
barHeight + 100 = 227.5. -/
theorem color_claim_cex :
    fillRed 255 = 455 / 2 ∧ clampChannel ((255 : ℚ) + 100) = 255 ∧
    fillRed 255 ≠ clampChannel ((255 : ℚ) + 100) := by
  have h1 : fillRed 255 = 455 / 2 := by
    rw [fillRed_eq 255 (by norm_num)]; norm_num
  have h2 : clampChannel ((255 : ℚ) + 100) = 255 := by
    rw [clampChannel, min_eq_right (by norm_num), max_eq_right (by norm_num)]
  exact ⟨h1, h2, by rw [h1, h2]; norm_num⟩

/-- C2: two togglePlayPause calls from rest give isPlaying = true then
false, exactly one Audio Tap is constructed across both calls, and any
call on an already-tapped player reuses the tap and never builds a
second one. -/
theorem toggle_lazy_init (s t : PlayerState)
    (hctx : s.audioCtx = none) (hplay : s.isPlaying = false)
    (htap : s.tapsConstructed = 0) (ht : t.audioCtx.isSome) :
    (handlePlayPause s).isPlaying = true ∧
    (handlePlayPause (handlePlayPause s)).isPlaying = false ∧
    (handlePlayPause s).tapsConstructed = 1 ∧
    (handlePlayPause (handlePlayPause s)).tapsConstructed = 1 ∧
    (handlePlayPause t).tapsConstructed = t.tapsConstructed ∧
    (handlePlayPause t).audioCtx = t.audioCtx := by
  obtain ⟨tap, htapEq⟩ := Option.isSome_iff_exists.mp ht
  refine ⟨?_, ?_, ?_, ?_, ?_, ?_⟩ <;>
    simp [handlePlayPause, hctx, hplay, htap, htapEq] <;>
    split <;> rfl

/-- C2 witness: the lazy-init law evaluated from the component's initial
state, taking the once-toggled state as the already-tapped player. -/
theorem toggle_lazy_init_witness :
    (handlePlayPause initialState).isPlaying = true ∧
    (handlePlayPause (handlePlayPause initialState)).isPlaying = false ∧
    (handlePlayPause initialState).tapsConstructed = 1 ∧
    (handlePlayPause (handlePlayPause initialState)).tapsConstructed = 1 ∧
    (handlePlayPause (handlePlayPause initialState)).tapsConstructed =
      (handlePlayPause initialState).tapsConstructed ∧
    (handlePlayPause (handlePlayPause initialState)).audioCtx =
      (handlePlayPause initialState).audioCtx :=
  toggle_lazy_init initialState (handlePlayPause initialState)
    rfl rfl rfl rfl

/-- C3 counterexample: after mounting with no Track Source the warning is
logged, but the controller is not inert: one play/pause call flips
isPlaying from false to true. -/
theorem inert_claim_cex :
    noSourceMounted.warned = true ∧
    noSourceMounted.isPlaying = false ∧
    (handlePlayPause noSourceMounted).isPlaying = true :=
  ⟨rfl, rfl, rfl⟩

/-- C3 (amended): when no Track Source is available at mount, a warning
is logged and the mount effect performs no further setup (the element's
src stays as it was and no listeners are attached), but the controller
is not inert: play/pause still toggles isPlaying and a volume action
still changes the element's volume. -/
theorem missing_source_warns_not_inert (s : PlayerState) (v : ℚ) :
    (mountEffect none s).warned = true ∧
    (mountEffect none s).src = s.src ∧
    (mountEffect none s).listenersAttached = s.listenersAttached ∧
    (handlePlayPause (mountEffect none s)).isPlaying = ! s.isPlaying ∧
    (handleVolumeChange v (mountEffect none s)).elemVolume = v :=
  ⟨rfl, rfl, rfl, rfl, rfl⟩

/-- C4: seeking while the duration is unknown computes NaN and assigns
it to currentTime unguarded; the platform setter rejects it with a
TypeError, so the call raises instead of clamping or ignoring. -/
theorem seek_unknown_duration_throws :
    handleProgressChange 50 unknownDuration =
      .error "TypeError: currentTime assigned a non-finite value" :=
  rfl

/-- C5: with a known finite duration D and percent p in [0, 100], seek
sets currentTime to exactly (p/100) * D and progress to p; in
particular the factor is exactly 1/2 at p = 50, 0 at p = 0, and 1 at
p = 100. -/
theorem seek_exact (p D : ℚ) (s : PlayerState)
    (hD : s.duration = some D) (hp0 : 0 ≤ p) (hp1 : p ≤ 100) :
    handleProgressChange p s =
      .ok { s with currentTime := p / 100 * D, progress := p } ∧
    (50 : ℚ) / 100 * D = D / 2 ∧
    (0 : ℚ) / 100 * D = 0 ∧
    (100 : ℚ) / 100 * D = D := by
  refine ⟨?_, by ring, by ring, by ring⟩
  simp [handleProgressChange, setCurrentTime, hD]

/-- C5 witness: seeking to 50 percent of a 7-unit track. -/
theorem seek_exact_witness :
    handleProgressChange 50 { initialState with duration := some 7 } =
      .ok { { initialState with duration := some 7 } with
              currentTime := 50 / 100 * 7, progress := 50 } ∧
    (50 : ℚ) / 100 * 7 = 7 / 2 ∧
    (0 : ℚ) / 100 * 7 = 0 ∧
    (100 : ℚ) / 100 * 7 = 7 :=
  seek_exact 50 7 { initialState with duration := some 7 }
    rfl (by norm_num) (by norm_num)

/-- C6: setVolume applies the value immediately to the element and to
the volume state, and the sequence setVolume 0 then setVolume 1 leaves
the element volume exactly 0 after the first call and exactly 1 after
the second. -/
theorem volume_roundtrip (v : ℚ) (s : PlayerState)
    (h0 : 0 ≤ v) (h1 : v ≤ 1) :
    (handleVolumeChange v s).elemVolume = v ∧
    (handleVolumeChange v s).volume = v ∧
    (handleVolumeChange 0 s).elemVolume = 0 ∧
    (handleVolumeChange 1 (handleVolumeChange 0 s)).elemVolume = 1 :=
  ⟨rfl, rfl, rfl, rfl⟩

/-- C6 witness: the round trip evaluated at v = 1/2 from the initial
state. -/
theorem volume_roundtrip_witness :
    (handleVolumeChange (1 / 2) initialState).elemVolume = 1 / 2 ∧
    (handleVolumeChange (1 / 2) initialState).volume = 1 / 2 ∧
    (handleVolumeChange 0 initialState).elemVolume = 0 ∧
    (handleVolumeChange 1 (handleVolumeChange 0 initialState)).elemVolume
      = 1 :=
  volume_roundtrip (1 / 2) initialState (by norm_num) (by norm_num)

/-- C7: the ended listener sets isPlaying to false from any state, and
delivering it again changes nothing (it is idempotent and total, so it
cannot throw). -/
theorem ended_idempotent (s : PlayerState) :
    (onEnded s).isPlaying = false ∧ onEnded (onEnded s) = onEnded s :=
  ⟨rfl, rfl⟩

/-- C8: the bin count is half the FFT size, so with fftSize 256 the
frame buffer allocated by visualize has length 128 (as does the
recorded bufferLength), and a render tick refreshes the buffer in place
without ever changing its length. -/
theorem buffer_length_fixed (vw : ℚ) (t : Tap) (r : Renderer)
    (bins : ℕ → ℕ) :
    frequencyBinCount t = t.fftSize / 2 ∧
    (visualizeInit { fftSize := 256 } vw).dataArray.length = 128 ∧
    (visualizeInit { fftSize := 256 } vw).bufferLength = 128 ∧
    (renderTick r bins).1.dataArray.length = r.dataArray.length ∧
    (renderTick r bins).1.bufferLength = r.bufferLength := by
  refine ⟨rfl, ?_, rfl, ?_, rfl⟩
  · simp [visualizeInit, frequencyBinCount]
  · simp [renderTick, getByteFrequencyData]

/-- C9: the render loop is deterministic: identical frequency-frame
sequences paint identical rectangle sequences, and the height and fill
of every bar are pure functions of its magnitude byte alone. -/
theorem render_deterministic (cw ch : ℚ) (f : List ℕ)
    (fs1 fs2 : List (List ℕ)) (h : fs1 = fs2) :
    fs1.map (drawFrame cw ch) = fs2.map (drawFrame cw ch) ∧
    (drawFrame cw ch f).map Rect.h = f.map barHeight ∧
    (drawFrame cw ch f).map rgbOf =
      f.map (fun m => (fillRed m, clampChannel 50, clampChannel 200)) := by
  subst h
  exact ⟨rfl, drawBars_map_h ch (barWidth cw f.length) f 0,
         drawBars_map_rgb ch (barWidth cw f.length) f 0⟩

/-- C9 witness: determinism evaluated on concrete frame sequences. -/
theorem render_deterministic_witness :
    [[1, 2]].map (drawFrame 90 300) = [[1, 2]].map (drawFrame 90 300) ∧
    (drawFrame 90 300 [0, 255]).map Rect.h = [0, 255].map barHeight ∧
    (drawFrame 90 300 [0, 255]).map rgbOf =
      [0, 255].map
        (fun m => (fillRed m, clampChannel 50, clampChannel 200)) :=
  render_deterministic 90 300 [0, 255] [[1, 2]] [[1, 2]] rfl

/-- C10: with no stored Track Source, download is a complete no-op; with
a source, exactly one click (the download trigger) on the fresh anchor
is recorded and the anchor is removed from the body again before the
call returns, leaving the body as it was. -/
theorem download_noop_and_cleanup (d : Doc) (url : String)
    (hinv : docInvariant d) :
    handleDownload none d = d ∧
    (handleDownload (some url) d).body = d.body ∧
    (handleDownload (some url) d).clicked = d.clicked ++ [(d.nextId, url)] := by
  refine ⟨rfl, ?_, rfl⟩
  have hnot : d.nextId ∉ d.body := fun hmem => lt_irrefl _ (hinv _ hmem)
  simp [handleDownload, List.erase_append_right _ hnot]

/-- C10 witness: the download behaviour on a concrete two-node document. -/
theorem download_noop_and_cleanup_witness :
    handleDownload none { body := [0, 1], nextId := 2, clicked := [] } =
      { body := [0, 1], nextId := 2, clicked := [] } ∧
    (handleDownload (some "blob:generated")
        { body := [0, 1], nextId := 2, clicked := [] }).body = [0, 1] ∧
    (handleDownload (some "blob:generated")
        { body := [0, 1], nextId := 2, clicked := [] }).clicked =
      [] ++ [(2, "blob:generated")] :=
  download_noop_and_cleanup { body := [0, 1], nextId := 2, clicked := [] }
    "blob:generated" (by unfold docInvariant; decide)

end MugenTransformer
